import Mathlib

set_option maxHeartbeats 1000000
set_option maxRecDepth 100000

namespace MD8800

/-! Shallow embedding of `md8800_gui.py` (MD8800 VFD control GUI, v8).

Byte sequences are modelled as `List Nat`, one entry per byte; masking is
explicit exactly where the source masks.  Serial output is modelled as a list
of emitted device events.  Randomness (`random.random`, `random.randint`,
`random.choice`) and the wall-clock time are explicit parameters of the
functions that consume them.  Tk scheduling (`self.after`) is not modelled as
such; each `..._tick` definition is one scheduled invocation of the
corresponding Python method. -/

/-- `VFD.ESC`: `self.send(bytes([0x1B, code] + list(params)))`. -/
def escBytes (code : Nat) (params : List Nat) : List Nat :=
  0x1B :: code :: params

/-- `VFD.mm_send_cols`: the 9 logical columns are reversed
(`cols.reverse()`) and each data byte is masked to 7 bits (`c & 0x7F`),
after the two header bytes `0x1B 0x31`. -/
def mm_send_cols (cols9 : List Nat) : List Nat :=
  0x1B :: 0x31 :: (cols9.reverse.map (fun c => c &&& 0x7F))

/-- `VFD.mm_clear`: `b"\x1B\x31" + bytes([0]*9)`. -/
def mm_clear_bytes : List Nat :=
  0x1B :: 0x31 :: List.replicate 9 0

/-- `VFD.clock_set`: `self.ESC(0x00, m, h, d, mo, (y>>8)&0xFF, y&0xFF)`. -/
def clock_set (minute hour day month year : Nat) : List Nat :=
  escBytes 0x00 [minute, hour, day, month, (year >>> 8) &&& 0xFF, year &&& 0xFF]

/-- Conceptual decoder for the clock-set byte sequence: read the six data
bytes back and recombine the year big-endian (`yearHi*256 + yearLo`). -/
def clock_decode (bs : List Nat) : Nat × Nat × Nat × Nat × Nat :=
  (bs.getD 2 0, bs.getD 3 0, bs.getD 4 0, bs.getD 5 0,
   (bs.getD 6 0) * 256 + bs.getD 7 0)

/-- `str.encode("ascii", "ignore")`: non-ASCII characters are dropped, the
rest become their code points. -/
def asciiOf (cs : List Char) : List Nat :=
  cs.filterMap (fun ch => if ch.toNat ≤ 127 then some ch.toNat else none)

/-- One call to a `VFD` output method.  `mmFrame cols` is `mm_send_cols cols`
(wire bytes given by the codec above), `mmClear` is `mm_clear`, `escCode` is
`ESC`, `textOut` is `write_text` after ASCII encoding. -/
inductive DevEvent where
  | mmFrame (cols : List Nat)
  | mmClear
  | escCode (code : Nat) (params : List Nat)
  | textOut (bytes : List Nat)
deriving DecidableEq, Repr

/-- `App._status_text`: select line 2, home the cursor, write the message
padded with 16 spaces and truncated to 16 characters. -/
def status_text_events (s : List Char) : List DevEvent :=
  [.escCode 0x22 [], .escCode 0x51 [],
   .textOut (asciiOf ((s ++ List.replicate 16 ' ').take 16))]

/-- Python `f"{n:2d}"`: decimal, right-justified to width 2. -/
def fmt2d (n : Nat) : List Char :=
  (if n < 10 then [' '] else []) ++ (toString n).data

/-- `App._show_snake_score`: both text lines are rewritten (the Tk label
update is UI, out of scope). -/
def show_snake_score_events (score : Nat) : List DevEvent :=
  [.escCode 0x21 [], .escCode 0x51 [],
   .textOut (asciiOf ((("SNAKE SCORE:".data) ++ fmt2d score).take 16)),
   .escCode 0x22 [], .escCode 0x51 [],
   .textOut (asciiOf (("Arrows / D-pad   ".data).take 16))]

/-- The `App` fields that the mini-matrix effects and the snake game read or
write.  Loop flags are the `self.loop_*` booleans; the rest is the private
per-effect progress state.  Game-of-Life cells are the ints `0`/`1` of the
source, used only truthily, hence `Bool` here. -/
structure AppState where
  loop_marquee : Bool
  loop_spin : Bool
  loop_twinkle : Bool
  loop_mini_rain : Bool
  loop_mini_snake : Bool
  loop_ball : Bool
  loop_stickman : Bool
  loop_gol : Bool
  loop_clock_bars : Bool
  loop_snake_game : Bool
  marquee_offset : Nat
  spin_state : Nat
  twinkle_cols : List Nat
  rain_drops : List (Nat × Nat)
  snake_idx : Nat
  ball_pos : Int × Int
  ball_vel : Int × Int
  stick_col : Int
  stick_idx : Nat
  gol_grid : List (List Bool)
  g_snake : List (Int × Int)
  g_dir : Int × Int
  g_pending : Int × Int
  g_food : Int × Int
  g_score : Nat
  g_paused : Bool
deriving DecidableEq, Repr

/-- `cols[c] |= (1 << r)`.  Every call site of the source keeps `c ≤ 8`, so
`List.set`'s out-of-range no-op is never reached. -/
def orBit (cols : List Nat) (c r : Nat) : List Nat :=
  cols.set c (cols.getD c 0 ||| (1 <<< r))

/-- `cols[c] ^= (1 << r)`. -/
def xorBit (cols : List Nat) (c r : Nat) : List Nat :=
  cols.set c (cols.getD c 0 ^^^ (1 <<< r))

/-- `cols[c] |= (1 << r)` for `int` coordinates; all call sites keep
`0 ≤ r ≤ 6` and `0 ≤ c ≤ 8`. -/
def orBitI (cols : List Nat) (c r : Int) : List Nat :=
  orBit cols c.toNat r.toNat

/-- `App._stop_all_mm`: disable every mini-matrix-writing mode, then clear
the mini-matrix. -/
def stop_all_mm (st : AppState) : AppState × List DevEvent :=
  ({st with loop_spin := false, loop_twinkle := false,
            loop_mini_rain := false, loop_mini_snake := false,
            loop_ball := false, loop_stickman := false,
            loop_gol := false, loop_clock_bars := false,
            loop_snake_game := false}, [.mmClear])

/-- `self._spin_frames` (assigned in `_spin_start`). -/
def spin_frames : List (List Nat) :=
  [[0x00, 0x08, 0x08, 0x08, 0x7F, 0x08, 0x08, 0x08, 0x00],
   [0x00, 0x00, 0x00, 0x7F, 0x08, 0x7F, 0x00, 0x00, 0x00],
   [0x00, 0x10, 0x10, 0x10, 0x7F, 0x10, 0x10, 0x10, 0x00],
   [0x00, 0x00, 0x00, 0x7F, 0x08, 0x7F, 0x00, 0x00, 0x00]]

/-- `App._spin_tick`. -/
def spin_tick (st : AppState) : AppState × List DevEvent :=
  if !st.loop_spin then (st, []) else
    let frame := spin_frames.getD (st.spin_state % spin_frames.length) []
    ({st with spin_state := st.spin_state + 1}, [.mmFrame frame])

/-- `App._spin_start`: guarded by `if self.loop_spin: return`. -/
def spin_start (st : AppState) : AppState × List DevEvent :=
  if st.loop_spin then (st, []) else
    spin_tick {st with loop_spin := true, spin_state := 0}

/-- `App._twinkle_tick`; the three `(randint(0,8), randint(0,6))` draws are
the explicit pairs `p1 p2 p3` (column first, as drawn in the source). -/
def twinkle_tick (st : AppState) (p1 p2 p3 : Nat × Nat) : AppState × List DevEvent :=
  if !st.loop_twinkle then (st, []) else
    let cols := [p1, p2, p3].foldl (fun cs p => xorBit cs p.1 p.2) st.twinkle_cols
    let cols2 := cols.map (fun c => c &&& 0x7F)
    ({st with twinkle_cols := cols2}, [.mmFrame cols2])

/-- `App._twinkle_start`: guarded by `if self.loop_twinkle: return`. -/
def twinkle_start (st : AppState) (p1 p2 p3 : Nat × Nat) : AppState × List DevEvent :=
  if st.loop_twinkle then (st, []) else
    twinkle_tick {st with loop_twinkle := true, twinkle_cols := List.replicate 9 0} p1 p2 p3

/-- `App._rain_tick`; `spawn` is `random.random() < self._rain_p` and `col`
is `randint(0,8)`.  Note the spawned drop is appended *before* every drop
(including the new one) is advanced by one row. -/
def rain_tick (st : AppState) (spawn : Bool) (col : Nat) : AppState × List DevEvent :=
  if !st.loop_mini_rain then (st, []) else
    let drops0 := if spawn then st.rain_drops ++ [(0, col)] else st.rain_drops
    let drops := drops0.filterMap (fun p => if p.1 + 1 ≤ 6 then some (p.1 + 1, p.2) else none)
    let cols := drops.foldl (fun cs p => orBit cs p.2 p.1) (List.replicate 9 0)
    ({st with rain_drops := drops}, [.mmFrame cols])

/-- `App._rain_start`: guarded by `if self.loop_mini_rain: return`. -/
def rain_start (st : AppState) (spawn : Bool) (col : Nat) : AppState × List DevEvent :=
  if st.loop_mini_rain then (st, []) else
    rain_tick {st with loop_mini_rain := true, rain_drops := []} spawn col

/-- `self._snake_path`: boustrophedon path over the 63 cells. -/
def snake_path : List (Nat × Nat) :=
  (List.range 7).flatMap (fun r =>
    (if r % 2 == 0 then List.range 9 else (List.range 9).reverse).map (fun c => (r, c)))

/-- `App._snake_tick` (decorative path snake, window length
`self._snake_len = 10`). -/
def snake_tick (st : AppState) : AppState × List DevEvent :=
  if !st.loop_mini_snake then (st, []) else
    let head_idx := st.snake_idx
    let tail_idx := head_idx - 10
    let segment := (List.range (head_idx + 1 - tail_idx)).map
      (fun k => snake_path.getD ((tail_idx + k) % snake_path.length) (0, 0))
    let cols := segment.foldl (fun cs p => orBit cs p.2 p.1) (List.replicate 9 0)
    ({st with snake_idx := st.snake_idx + 1}, [.mmFrame cols])

/-- `App._snake_start` (decorative path snake): guarded by
`if self.loop_mini_snake: return`. -/
def snake_start (st : AppState) : AppState × List DevEvent :=
  if st.loop_mini_snake then (st, []) else
    snake_tick {st with loop_mini_snake := true, snake_idx := 0}

/-- `App._marquee_tick`; `line` and `raw` are the UI inputs
(`marquee_line`, `marquee_text`). -/
def marquee_tick (st : AppState) (line : Nat) (raw : List Char) : AppState × List DevEvent :=
  if !st.loop_marquee then (st, []) else
    let s := List.replicate 16 ' ' ++ raw ++ List.replicate 16 ' '
    let i := st.marquee_offset % (s.length - 15)
    let chunk := (s.drop i).take 16
    ({st with marquee_offset := st.marquee_offset + 1},
     [(if line == 0 then DevEvent.escCode 0x21 [] else DevEvent.escCode 0x22 []),
      .escCode 0x51 [], .textOut (asciiOf chunk)])

/-- `App._marquee_start`: guarded by `if self.loop_marquee: return`. -/
def marquee_start (st : AppState) (line : Nat) (raw : List Char) : AppState × List DevEvent :=
  if st.loop_marquee then (st, []) else
    marquee_tick {st with loop_marquee := true, marquee_offset := 0} line raw

/-- `App._ball_tick`. -/
def ball_tick (st : AppState) : AppState × List DevEvent :=
  if !st.loop_ball then (st, []) else
    let r := st.ball_pos.1
    let c := st.ball_pos.2
    let vr := st.ball_vel.1
    let vc := st.ball_vel.2
    let r2 := r + vr
    let c2 := c + vc
    let vr2 := if r2 < 0 ∨ 6 < r2 then -vr else vr
    let r3 := if r2 < 0 ∨ 6 < r2 then r + vr2 else r2
    let vc2 := if c2 < 0 ∨ 8 < c2 then -vc else vc
    let c3 := if c2 < 0 ∨ 8 < c2 then c + vc2 else c2
    let cols := orBitI (List.replicate 9 0) c3 r3
    ({st with ball_pos := (r3, c3), ball_vel := (vr2, vc2)}, [.mmFrame cols])

/-- `App._ball_start`: no enabled-guard; stops the whole group, re-enables,
and ticks immediately. -/
def ball_start (st : AppState) : AppState × List DevEvent :=
  let s1 := stop_all_mm st
  let s2 := ball_tick {s1.1 with loop_ball := true}
  (s2.1, s1.2 ++ s2.2)

/-- `cols[3:6] = cols3` on `[0]*9` (helper `center3` of
`_build_stickman_frames`). -/
def center3 (cols3 : List Nat) : List Nat :=
  [0, 0, 0] ++ cols3 ++ [0, 0, 0]

/-- `App._build_stickman_frames`. -/
def stick_frames : List (List Nat) :=
  let A0 := center3 [0b0010000, 0b0111000, 0b0010000]
  let A1 := A0.set 2 (A0.getD 2 0 ||| 0b0001000)
  let A2 := A1.set 6 (A1.getD 6 0 ||| 0b0100000)
  let B0 := center3 [0b0010000, 0b0111000, 0b0010000]
  let B1 := B0.set 2 (B0.getD 2 0 ||| 0b0011000)
  let B2 := B1.set 5 (B1.getD 5 0 ||| 0b0100000)
  let C0 := center3 [0b0010000, 0b0111000, 0b0010000]
  let C1 := C0.set 4 (C0.getD 4 0 ||| 0b0001000)
  let C2 := C1.set 6 (C1.getD 6 0 ||| 0b0010000)
  let D0 := center3 [0b0010000, 0b0111000, 0b0010000]
  let D1 := D0.set 2 (D0.getD 2 0 ||| 0b0100000)
  let D2 := D1.set 4 (D1.getD 4 0 ||| 0b0001000)
  [A2, B2, C2, D2]

/-- `App._stickman_tick`. -/
def stickman_tick (st : AppState) : AppState × List DevEvent :=
  if !st.loop_stickman then (st, []) else
    let frame := stick_frames.getD (st.stick_idx % stick_frames.length) []
    let col1 := st.stick_col - 1
    let cols := (List.range 9).map (fun i =>
      let src : Int := (i : Int) - (9 - col1)
      if 0 ≤ src ∧ src < 9 then frame.getD src.toNat 0 else 0)
    let next := if col1 ≤ 0 then ((9 : Int), st.stick_idx + 1) else (col1, st.stick_idx)
    ({st with stick_col := next.1, stick_idx := next.2}, [.mmFrame cols])

/-- `App._stickman_start`: no enabled-guard; stops the whole group first. -/
def stickman_start (st : AppState) : AppState × List DevEvent :=
  let s1 := stop_all_mm st
  let s2 := stickman_tick {s1.1 with loop_stickman := true, stick_col := 9, stick_idx := 0}
  (s2.1, s1.2 ++ s2.2)

/-- `g[rr][cc]` guarded by `0 <= rr < 7 and 0 <= cc < 9` as in
`App._gol_step`. -/
def golGet (g : List (List Bool)) (r c : Int) : Bool :=
  if 0 ≤ r ∧ r < 7 ∧ 0 ≤ c ∧ c < 9 then (g.getD r.toNat []).getD c.toNat false else false

/-- The eight `(dr, dc)` offsets of `_gol_step`, in loop order, `(0,0)`
skipped. -/
def mooreOffsets : List (Int × Int) :=
  [(-1, -1), (-1, 0), (-1, 1), (0, -1), (0, 1), (1, -1), (1, 0), (1, 1)]

/-- The neighbour count `n` of `App._gol_step`. -/
def golNeighbors (g : List (List Bool)) (r c : Nat) : Nat :=
  mooreOffsets.countP (fun d => golGet g ((r : Int) + d.1) ((c : Int) + d.2))

/-- `App._gol_step`: next generation in a fresh grid. -/
def gol_step (g : List (List Bool)) : List (List Bool) :=
  (List.range 7).map (fun r => (List.range 9).map (fun c =>
    let n := golNeighbors g r c
    let alive := (g.getD r []).getD c false
    if alive then n == 2 || n == 3 else n == 3))

/-- The column packing of `App._gol_tick` (row-major `cols[c] |= 1 << r`). -/
def gol_cols (g : List (List Bool)) : List Nat :=
  ((List.range 7).flatMap (fun r => (List.range 9).map (fun c => (r, c)))).foldl
    (fun cs p => if (g.getD p.1 []).getD p.2 false then orBit cs p.2 p.1 else cs)
    (List.replicate 9 0)

/-- `App._gol_tick`: draw the current grid, then step it. -/
def gol_tick (st : AppState) : AppState × List DevEvent :=
  if !st.loop_gol then (st, []) else
    ({st with gol_grid := gol_step st.gol_grid}, [.mmFrame (gol_cols st.gol_grid)])

/-- `App._gol_start`: no enabled-guard; stops the whole group first. -/
def gol_start (st : AppState) : AppState × List DevEvent :=
  let s1 := stop_all_mm st
  let s2 := gol_tick {s1.1 with loop_gol := true}
  (s2.1, s1.2 ++ s2.2)

/-- `int(round((val/maxval)*7))` of `_clock_bars_tick`, as exact rational
rounding `⌊val*7/maxval + 1/2⌋`.  For `maxval ∈ {23, 59}` and `val ≤ maxval`
no tie is representable (`14*val = maxval*(2k+1)` has no solution, an even
number never equals an odd one), and the quotients are far enough from every
half-integer that the double-precision evaluation agrees. -/
def bar_height (val maxval : Nat) : Nat :=
  (14 * val + maxval) / (2 * maxval)

/-- The local `bars` of `App._clock_bars_tick`: a contiguous run of set bits
from row 0, replicated over three columns. -/
def bars (val maxval : Nat) : List Nat :=
  let h := bar_height val maxval
  let col := (List.range h).foldl (fun acc i => acc ||| (1 <<< i)) 0
  [col, col, col]

/-- `App._clock_bars_tick`; `H M S` are the sampled wall-clock fields. -/
def clock_bars_tick (st : AppState) (H M S : Nat) : AppState × List DevEvent :=
  if !st.loop_clock_bars then (st, []) else
    (st, [.mmFrame ((bars H 23 ++ bars M 59 ++ bars S 59).take 9)])

/-- `App._clock_bars_start`: no enabled-guard; stops the whole group
first. -/
def clock_bars_start (st : AppState) (H M S : Nat) : AppState × List DevEvent :=
  let s1 := stop_all_mm st
  let s2 := clock_bars_tick {s1.1 with loop_clock_bars := true} H M S
  (s2.1, s1.2 ++ s2.2)

/-- The 63 board cells in the row-major order of the comprehension in
`App._rand_food`. -/
def allCells : List (Int × Int) :=
  (List.range 7).flatMap (fun r => (List.range 9).map (fun c => ((r : Int), (c : Int))))

/-- `free = [(r,c) ... if (r,c) not in snake]` of `App._rand_food`. -/
def freeCells (snake : List (Int × Int)) : List (Int × Int) :=
  allCells.filter (fun p => decide (p ∉ snake))

/-- `App._rand_food`: `random.choice(free) if free else (3,4)`.  The uniform
choice is modelled by the explicit index `pick % free.length`, which reaches
every element `random.choice` can return. -/
def rand_food (snake : List (Int × Int)) (pick : Nat) : Int × Int :=
  let free := freeCells snake
  if free.isEmpty then (3, 4) else free.getD (pick % free.length) (3, 4)

/-- `App._snake_key`: a pending direction equal to the exact negation of the
current direction is discarded. -/
def snake_key (st : AppState) (d : Int × Int) : AppState :=
  if d = (-st.g_dir.1, -st.g_dir.2) then st else {st with g_pending := d}

/-- `App._snake_game_reset`. -/
def snake_game_reset (st : AppState) (pick : Nat) : AppState × List DevEvent :=
  let snake : List (Int × Int) := [(3, 2), (3, 1), (3, 0)]
  let st2 := {st with g_snake := snake, g_dir := ((0 : Int), (1 : Int)),
                      g_pending := ((0 : Int), (1 : Int)),
                      g_food := rand_food snake pick, g_score := 0}
  (st2, show_snake_score_events st2.g_score ++ [.mmClear])

/-- The frame drawn by `App._snake_game_tick`: food first, then every snake
cell. -/
def snake_cols (food : Int × Int) (snake : List (Int × Int)) : List Nat :=
  snake.foldl (fun cs p => orBitI cs p.2 p.1)
    (orBitI (List.replicate 9 0) food.2 food.1)

/-- `App._snake_game_tick`; `pick` feeds `rand_food` when the food is
eaten. -/
def snake_game_tick (st : AppState) (pick : Nat) : AppState × List DevEvent :=
  if !st.loop_snake_game then (st, []) else
  if st.g_paused then (st, []) else
    let dir := st.g_pending
    let head := st.g_snake.headD (0, 0)
    let nr := head.1 + dir.1
    let nc := head.2 + dir.2
    if ¬(0 ≤ nr ∧ nr ≤ 6 ∧ 0 ≤ nc ∧ nc ≤ 8) ∨ (nr, nc) ∈ st.g_snake then
      ({st with g_dir := dir, loop_snake_game := false},
       status_text_events ("Game Over!".data))
    else
      let newSnake := (nr, nc) :: st.g_snake
      if (nr, nc) = st.g_food then
        let st2 := {st with g_dir := dir, g_snake := newSnake,
                            g_score := st.g_score + 1,
                            g_food := rand_food newSnake pick}
        (st2, show_snake_score_events st2.g_score ++
              [.mmFrame (snake_cols st2.g_food st2.g_snake)])
      else
        let st2 := {st with g_dir := dir, g_snake := newSnake.dropLast}
        (st2, [.mmFrame (snake_cols st2.g_food st2.g_snake)])

/-- `App._snake_game_toggle_pause`. -/
def snake_game_toggle_pause (st : AppState) : AppState × List DevEvent :=
  if !st.loop_snake_game then (st, []) else
    let st2 := {st with g_paused := !st.g_paused}
    (st2, status_text_events (if st2.g_paused then ("Paused".data) else ("Running".data)))

/-- `App._snake_game_start`: no enabled-guard; stops the whole group,
unpauses, rewrites the score lines, and ticks immediately. -/
def snake_game_start (st : AppState) (pick : Nat) : AppState × List DevEvent :=
  let s1 := stop_all_mm st
  let st2 := {s1.1 with loop_snake_game := true, g_paused := false}
  let s3 := snake_game_tick st2 pick
  (s3.1, s1.2 ++ show_snake_score_events st2.g_score ++ s3.2)

/-- A 7×9 grid with the given cells live (test patterns for Game of
Life). -/
def mkGrid (cells : List (Nat × Nat)) : List (List Bool) :=
  (List.range 7).map (fun r => (List.range 9).map (fun c => decide ((r, c) ∈ cells)))

/-- `App.__init__`, restricted to the modelled fields.  The random initial
Game-of-Life grid and the initial `_rand_food` draw are the parameters. -/
def initState (grid : List (List Bool)) (pick : Nat) : AppState :=
  { loop_marquee := false, loop_spin := false, loop_twinkle := false,
    loop_mini_rain := false, loop_mini_snake := false, loop_ball := false,
    loop_stickman := false, loop_gol := false, loop_clock_bars := false,
    loop_snake_game := false,
    marquee_offset := 0, spin_state := 0,
    twinkle_cols := List.replicate 9 0, rain_drops := [], snake_idx := 0,
    ball_pos := (3, 4), ball_vel := (1, 1),
    stick_col := -3, stick_idx := 0,
    gol_grid := grid,
    g_snake := [(3, 2), (3, 1), (3, 0)],
    g_dir := (0, 1), g_pending := (0, 1),
    g_food := rand_food [(3, 2), (3, 1), (3, 0)] pick,
    g_score := 0, g_paused := false }

/-- A sequence of `_snake_key` presses between two ticks. -/
def applyKeys (st : AppState) (ks : List (Int × Int)) : AppState :=
  ks.foldl snake_key st

/-- The snake-game states reachable through the modelled entry points:
process start (`__init__`), then any interleaving of game ticks, key
presses, pause toggles, resets and game starts. -/
inductive SnakeReach : AppState → Prop where
  | init (grid : List (List Bool)) (pick : Nat) : SnakeReach (initState grid pick)
  | tick (st : AppState) (pick : Nat) :
      SnakeReach st → SnakeReach (snake_game_tick st pick).1
  | key (st : AppState) (d : Int × Int) :
      SnakeReach st → SnakeReach (snake_key st d)
  | pause (st : AppState) :
      SnakeReach st → SnakeReach (snake_game_toggle_pause st).1
  | reset (st : AppState) (pick : Nat) :
      SnakeReach st → SnakeReach (snake_game_reset st pick).1
  | start (st : AppState) (pick : Nat) :
      SnakeReach st → SnakeReach (snake_game_start st pick).1

/-- Run a list of `(direction key, rand_food pick)` inputs, one game tick
after each key press. -/
def snakeRunScript (st : AppState) (ms : List ((Int × Int) × Nat)) : AppState :=
  ms.foldl (fun s m => (snake_game_tick (snake_key s m.1) m.2).1) st

/-- An input script for a perfect game: 7 repositioning moves (the head
walks to `(0,2)` with the tail at `(0,0)`), then 60 growth moves along the
row-serpentine; every growth tick eats the food, and each pick places the
next food on the next serpentine cell, so the tail never moves and the
snake finally covers all 63 cells. -/
def snakeScript : List ((Int × Int) × Nat) :=
  [((-1, 0), 0), ((0, -1), 0), ((0, -1), 0), ((-1, 0), 0), ((-1, 0), 0),
   ((0, 1), 0), ((0, 1), 0),
   ((0, 1), 0), ((0, 1), 0), ((0, 1), 0), ((0, 1), 0), ((0, 1), 0),
   ((0, 1), 8), ((1, 0), 7), ((0, -1), 6), ((0, -1), 5), ((0, -1), 4),
   ((0, -1), 3), ((0, -1), 2), ((0, -1), 1), ((0, -1), 0), ((0, -1), 0),
   ((1, 0), 0), ((0, 1), 0), ((0, 1), 0), ((0, 1), 0), ((0, 1), 0),
   ((0, 1), 0), ((0, 1), 0), ((0, 1), 0), ((0, 1), 8), ((1, 0), 7),
   ((0, -1), 6), ((0, -1), 5), ((0, -1), 4), ((0, -1), 3), ((0, -1), 2),
   ((0, -1), 1), ((0, -1), 0), ((0, -1), 0), ((1, 0), 0), ((0, 1), 0),
   ((0, 1), 0), ((0, 1), 0), ((0, 1), 0), ((0, 1), 0), ((0, 1), 0),
   ((0, 1), 0), ((0, 1), 8), ((1, 0), 7), ((0, -1), 6), ((0, -1), 5),
   ((0, -1), 4), ((0, -1), 3), ((0, -1), 2), ((0, -1), 1), ((0, -1), 0),
   ((0, -1), 0), ((1, 0), 0), ((0, 1), 0), ((0, 1), 0), ((0, 1), 0),
   ((0, 1), 0), ((0, 1), 0), ((0, 1), 0), ((0, 1), 0), ((0, 1), 0)]

/-- A concrete base state for evaluating the model (empty Game-of-Life grid,
initial food draw 0, i.e. food at `(0,0)`). -/
def st0 : AppState := initState (mkGrid []) 0

/-- The state after start, reset (with food pick 3, food `(0,3)`), and the
full `snakeScript`: the snake covers the whole 7×9 board. -/
def snakeFullBoardState : AppState :=
  snakeRunScript (snake_game_reset (snake_game_start st0 0).1 3).1 snakeScript

/-- `st0` with the playable snake game running and un-paused. -/
def stRun : AppState := {st0 with loop_snake_game := true}

/-- `st0` with all five guarded (pre-v8) mini-matrix and text effects
enabled. -/
def stGuardedAll : AppState :=
  { st0 with
    loop_marquee := true,
    loop_spin := true,
    loop_twinkle := true,
    loop_mini_rain := true,
    loop_mini_snake := true }

/-- C1: for every input list of 9 column values, `mm_send_cols` emits exactly
11 bytes: the header `0x1B 0x31` followed by the 9 columns in exactly
reversed order (logical rightmost column first), each data byte masked to
7 bits and therefore at most `0x7F`. -/
theorem mm_send_cols_frame_encoding (c0 c1 c2 c3 c4 c5 c6 c7 c8 : Nat) :
    mm_send_cols [c0, c1, c2, c3, c4, c5, c6, c7, c8] =
      [0x1B, 0x31, c8 &&& 0x7F, c7 &&& 0x7F, c6 &&& 0x7F, c5 &&& 0x7F,
       c4 &&& 0x7F, c3 &&& 0x7F, c2 &&& 0x7F, c1 &&& 0x7F, c0 &&& 0x7F] ∧
    (mm_send_cols [c0, c1, c2, c3, c4, c5, c6, c7, c8]).length = 11 ∧
    ∀ b ∈ (mm_send_cols [c0, c1, c2, c3, c4, c5, c6, c7, c8]).drop 2, b ≤ 0x7F := by
  refine ⟨rfl, rfl, ?_⟩
  intro b hb
  simp only [mm_send_cols, List.reverse_cons, List.reverse_nil, List.nil_append,
    List.cons_append, List.map_cons, List.map_nil, List.drop_succ_cons,
    List.drop_zero, List.mem_cons, List.not_mem_nil, or_false] at hb
  rcases hb with h | h | h | h | h | h | h | h | h <;> subst h <;>
    exact Nat.and_le_right

/-- C8: `clock_set` serializes a clock value as the escape code `0x00`
followed by exactly the six bytes minute, hour, day, month, year-high-byte,
year-low-byte; decoding those six bytes (recombining the year big-endian as
`yearHi*256 + yearLo`) recovers minute, hour, day, month and year exactly
for every 4-digit year. -/
theorem clock_set_roundtrip (m h d mo y : Nat) (hy : y ≤ 9999) :
    clock_set m h d mo y =
      [0x1B, 0x00, m, h, d, mo, (y >>> 8) &&& 0xFF, y &&& 0xFF] ∧
    clock_decode (clock_set m h d mo y) = (m, h, d, mo, y) := by
  refine ⟨rfl, ?_⟩
  have hlo : y &&& 0xFF = y % 256 := Nat.and_pow_two_sub_one_eq_mod y 8
  have hsh : y >>> 8 = y / 256 := by
    rw [Nat.shiftRight_eq_div_pow]
  have hdiv : y / 256 < 256 := by omega
  have hhi : (y >>> 8) &&& 0xFF = y / 256 := by
    rw [hsh]
    rw [show (y / 256) &&& 0xFF = y / 256 % 2 ^ 8 from Nat.and_pow_two_sub_one_eq_mod _ 8]
    exact Nat.mod_eq_of_lt hdiv
  show (m, h, d, mo, ((y >>> 8) &&& 0xFF) * 256 + (y &&& 0xFF)) = (m, h, d, mo, y)
  rw [hhi, hlo]
  have : y / 256 * 256 + y % 256 = y := by omega
  rw [this]

/-- Witness for C8 at a concrete clock value. -/
theorem clock_set_roundtrip_witness :
    clock_decode (clock_set 34 12 5 10 2024) = (34, 12, 5, 10, 2024) :=
  (clock_set_roundtrip 34 12 5 10 2024 (by decide)).2

/-- The nine mini-matrix mutual-exclusion-group flags, in one list
(spinner, twinkle, rain, path snake, ball, stickman, Game of Life, clock
bars, playable snake). -/
def groupFlags (st : AppState) : List Bool :=
  [st.loop_spin, st.loop_twinkle, st.loop_mini_rain, st.loop_mini_snake,
   st.loop_ball, st.loop_stickman, st.loop_gol, st.loop_clock_bars,
   st.loop_snake_game]

/-- C2 counterexample: starting Twinkle (a group member) while Game of Life
is enabled leaves Game of Life enabled and does not clear the mini-matrix,
so starting an arbitrary group member does *not* disable every other group
member: only the five v8 starts call `_stop_all_mm`. -/
theorem mm_group_exclusion_counterexample :
    ((twinkle_start {st0 with loop_gol := true} (0, 0) (0, 0) (0, 0)).1.loop_gol = true) ∧
    DevEvent.mmClear ∉ (twinkle_start {st0 with loop_gol := true} (0, 0) (0, 0) (0, 0)).2 := by
  decide

/-- C2 amended: starting any of the five v8 group members (bouncing ball,
stickman, Game of Life, clock bars, playable Snake) disables every other
group member and clears the mini-matrix surface (the clear is the very
first device event) before the started effect writes its first frame. -/
theorem mm_group_exclusion_v8 (st : AppState) (H M S pick : Nat) :
    (groupFlags (ball_start st).1 =
       [false, false, false, false, true, false, false, false, false] ∧
     (ball_start st).2.head? = some DevEvent.mmClear) ∧
    (groupFlags (stickman_start st).1 =
       [false, false, false, false, false, true, false, false, false] ∧
     (stickman_start st).2.head? = some DevEvent.mmClear) ∧
    (groupFlags (gol_start st).1 =
       [false, false, false, false, false, false, true, false, false] ∧
     (gol_start st).2.head? = some DevEvent.mmClear) ∧
    (groupFlags (clock_bars_start st H M S).1 =
       [false, false, false, false, false, false, false, true, false] ∧
     (clock_bars_start st H M S).2.head? = some DevEvent.mmClear) ∧
    ((snake_game_start st pick).1.loop_spin = false ∧
     (snake_game_start st pick).1.loop_twinkle = false ∧
     (snake_game_start st pick).1.loop_mini_rain = false ∧
     (snake_game_start st pick).1.loop_mini_snake = false ∧
     (snake_game_start st pick).1.loop_ball = false ∧
     (snake_game_start st pick).1.loop_stickman = false ∧
     (snake_game_start st pick).1.loop_gol = false ∧
     (snake_game_start st pick).1.loop_clock_bars = false ∧
     (snake_game_start st pick).2.head? = some DevEvent.mmClear) := by
  refine ⟨⟨?_, ?_⟩, ⟨?_, ?_⟩, ⟨?_, ?_⟩, ⟨?_, ?_⟩, ?_⟩
  · simp [groupFlags, ball_start, stop_all_mm, ball_tick]
  · simp [ball_start, stop_all_mm, ball_tick]
  · simp [groupFlags, stickman_start, stop_all_mm, stickman_tick]
  · simp [stickman_start, stop_all_mm, stickman_tick]
  · simp [groupFlags, gol_start, stop_all_mm, gol_tick]
  · simp [gol_start, stop_all_mm, gol_tick]
  · simp [groupFlags, clock_bars_start, stop_all_mm, clock_bars_tick]
  · simp [clock_bars_start, stop_all_mm, clock_bars_tick]
  · refine ⟨?_, ?_, ?_, ?_, ?_, ?_, ?_, ?_, ?_⟩ <;>
      simp only [snake_game_start, stop_all_mm, snake_game_tick] <;>
      split_ifs <;> simp

/-- C3 counterexample: `_ball_start` while the ball effect is already
enabled is not a no-op: it emits device writes (a clear and a fresh frame)
and changes effect state. -/
theorem effect_start_noop_counterexample :
    (ball_start {st0 with loop_ball := true}).2 ≠ [] ∧
    (ball_start {st0 with loop_ball := true}).1 ≠ {st0 with loop_ball := true} := by
  decide

/-- C3 amended: every pre-v8 effect guards its start with
`if self.loop_...: return`, so starting it while enabled is a no-op (state
unchanged, no device write, no new tick chain); shown here for marquee,
spinner, twinkle, rain and the decorative path snake.  The five v8 starts
(`_ball_start` among them) lack the guard and always write the device. -/
theorem effect_start_noop_guarded (st : AppState) (line : Nat) (raw : List Char)
    (p1 p2 p3 : Nat × Nat) (spawn : Bool) (col : Nat) :
    (st.loop_marquee = true → marquee_start st line raw = (st, [])) ∧
    (st.loop_spin = true → spin_start st = (st, [])) ∧
    (st.loop_twinkle = true → twinkle_start st p1 p2 p3 = (st, [])) ∧
    (st.loop_mini_rain = true → rain_start st spawn col = (st, [])) ∧
    (st.loop_mini_snake = true → snake_start st = (st, [])) ∧
    (ball_start st).2 ≠ [] := by
  refine ⟨?_, ?_, ?_, ?_, ?_, ?_⟩
  · intro h; simp [marquee_start, h]
  · intro h; simp [spin_start, h]
  · intro h; simp [twinkle_start, h]
  · intro h; simp [rain_start, h]
  · intro h; simp [snake_start, h]
  · simp [ball_start, stop_all_mm, ball_tick]

/-- Witness for the guarded no-op starts at a concrete state with all five
guarded effects enabled. -/
theorem effect_start_noop_guarded_witness :
    (marquee_start stGuardedAll 0 [] = (stGuardedAll, [])) ∧
    (spin_start stGuardedAll = (stGuardedAll, [])) ∧
    (twinkle_start stGuardedAll (0, 0) (0, 0) (0, 0) = (stGuardedAll, [])) ∧
    (rain_start stGuardedAll false 0 = (stGuardedAll, [])) ∧
    (snake_start stGuardedAll = (stGuardedAll, [])) := by
  have h := effect_start_noop_guarded stGuardedAll 0 [] (0, 0) (0, 0) (0, 0) false 0
  exact ⟨h.1 rfl, h.2.1 rfl, h.2.2.1 rfl, h.2.2.2.1 rfl, h.2.2.2.2.1 rfl⟩

/-- C4: for the running, un-paused snake game with snake
`[(3,2),(3,1),(3,0)]` and direction `(0,1)`: a tick moves the head to
`(3,3)`; if `(3,3)` is the food, the snake length and the score each grow
by exactly 1 (tail kept); otherwise the tail is trimmed and the length is
unchanged; and a tick whose new head is out of bounds (here `(3,-1)`) or on
a body cell ends the game (`loop_snake_game` cleared, "Game Over!"). -/
theorem snake_game_tick_spec (food : Int × Int) (pick score : Nat)
    (hfood : food ≠ ((3 : Int), (3 : Int))) :
    ((snake_game_tick {stRun with g_food := (3, 3), g_score := score} pick).1.g_snake
        = [((3 : Int), (3 : Int)), (3, 2), (3, 1), (3, 0)] ∧
     (snake_game_tick {stRun with g_food := (3, 3), g_score := score} pick).1.g_score
        = score + 1) ∧
    ((snake_game_tick {stRun with g_food := food, g_score := score} pick).1.g_snake
        = [((3 : Int), (3 : Int)), (3, 2), (3, 1)] ∧
     (snake_game_tick {stRun with g_food := food, g_score := score} pick).1.g_score
        = score) ∧
    ((snake_game_tick {stRun with
                       g_snake := [((3 : Int), (0 : Int)), (3, 1), (3, 2)],
                       g_dir := (0, -1),
                       g_pending := (0, -1)} pick).1.loop_snake_game = false) ∧
    ((snake_game_tick {stRun with
                       g_dir := (1, 0),
                       g_pending := (0, -1)} pick).1.loop_snake_game = false) := by
  refine ⟨⟨rfl, rfl⟩, ?_, rfl, rfl⟩
  have hne : ((3 : Int), (3 : Int)) ≠ food := Ne.symm hfood
  constructor <;>
    · simp only [snake_game_tick, stRun, st0, initState, List.headD_cons]
      norm_num [List.mem_cons, Prod.ext_iff, hne]

/-- Witness for C4 with the food away at `(6,8)` (move case) and at `(3,3)`
(growth case). -/
theorem snake_game_tick_spec_witness :
    (snake_game_tick {stRun with g_food := ((6 : Int), (8 : Int)), g_score := 0} 0).1.g_snake
      = [((3 : Int), (3 : Int)), (3, 2), (3, 1)] ∧
    (snake_game_tick {stRun with g_food := ((3 : Int), (3 : Int)), g_score := 0} 0).1.g_score
      = 1 := by
  have h := snake_game_tick_spec (6, 8) 0 0 (by decide)
  exact ⟨h.2.1.1, h.1.2⟩

/-- C5: between two snake-game ticks, a key press whose direction exactly
reverses the current direction is never stored in the pending buffer, so
after any sequence of key presses the pending direction is still not the
negation of the last applied direction, and the direction the next tick
applies is never the exact negation of the direction applied at the
previous tick. -/
theorem snake_key_no_reverse (st : AppState) (ks : List (Int × Int)) (pick : Nat)
    (hinv : st.g_pending ≠ (-st.g_dir.1, -st.g_dir.2)) :
    (applyKeys st ks).g_dir = st.g_dir ∧
    (applyKeys st ks).g_pending ≠ (-st.g_dir.1, -st.g_dir.2) ∧
    (st.loop_snake_game = true → st.g_paused = false →
      (snake_game_tick (applyKeys st ks) pick).1.g_dir ≠ (-st.g_dir.1, -st.g_dir.2)) := by
  have main : ∀ (ks : List (Int × Int)) (s : AppState),
      s.g_dir = st.g_dir → s.g_pending ≠ (-st.g_dir.1, -st.g_dir.2) →
      s.loop_snake_game = st.loop_snake_game → s.g_paused = st.g_paused →
      (applyKeys s ks).g_dir = st.g_dir ∧
      (applyKeys s ks).g_pending ≠ (-st.g_dir.1, -st.g_dir.2) ∧
      (applyKeys s ks).loop_snake_game = st.loop_snake_game ∧
      (applyKeys s ks).g_paused = st.g_paused := by
    intro ks
    induction ks with
    | nil => intro s h1 h2 h3 h4; exact ⟨h1, h2, h3, h4⟩
    | cons k ks ih =>
      intro s h1 h2 h3 h4
      have hstep : applyKeys s (k :: ks) = applyKeys (snake_key s k) ks := rfl
      rw [hstep]
      by_cases hk : k = (-s.g_dir.1, -s.g_dir.2)
      · have hkey : snake_key s k = s := by simp [snake_key, hk]
        rw [hkey]; exact ih s h1 h2 h3 h4
      · have hkey : snake_key s k = {s with g_pending := k} := by
          simp [snake_key, hk]
        rw [hkey]
        refine ih _ h1 ?_ h3 h4
        show k ≠ (-st.g_dir.1, -st.g_dir.2)
        rw [← h1]; exact hk
  obtain ⟨h1, h2, h3, h4⟩ := main ks st rfl hinv rfl rfl
  refine ⟨h1, h2, ?_⟩
  intro hrun hpaused
  have hdir : (snake_game_tick (applyKeys st ks) pick).1.g_dir = (applyKeys st ks).g_pending := by
    have hr : (applyKeys st ks).loop_snake_game = true := h3.trans hrun
    have hp : (applyKeys st ks).g_paused = false := h4.trans hpaused
    simp only [snake_game_tick, hr, hp, Bool.not_true, Bool.false_eq_true, if_false]
    split_ifs <;> rfl
  rw [hdir]; exact h2

/-- Witness for C5: from the reset state (pending `(0,1)` is not the
negation of direction `(0,1)`), pressing up then left leaves the pending
direction different from `(0,-1)` and the next tick's applied direction
different from `(0,-1)`. -/
theorem snake_key_no_reverse_witness :
    (applyKeys stRun [(-1, 0), (0, -1)]).g_dir = stRun.g_dir ∧
    (applyKeys stRun [(-1, 0), (0, -1)]).g_pending ≠ (-stRun.g_dir.1, -stRun.g_dir.2) ∧
    (snake_game_tick (applyKeys stRun [(-1, 0), (0, -1)]) 0).1.g_dir
      ≠ (-stRun.g_dir.1, -stRun.g_dir.2) := by
  have h := snake_key_no_reverse stRun [(-1, 0), (0, -1)] 0 (by decide)
  exact ⟨h.1, h.2.1, h.2.2 rfl rfl⟩

/-- C10: a snake-game tick that ends in game over (new head out of bounds
or on a body cell) leaves the snake, the food and the score exactly as they
were, transmits no mini-matrix frame (only the "Game Over!" text), and its
only state change is that the direction has been overwritten with the
pending direction and the effect flag cleared. -/
theorem snake_game_over_preserves (st : AppState) (pick : Nat)
    (hrun : st.loop_snake_game = true) (hpause : st.g_paused = false)
    (hover :
      ¬(0 ≤ (st.g_snake.headD (0, 0)).1 + st.g_pending.1 ∧
        (st.g_snake.headD (0, 0)).1 + st.g_pending.1 ≤ 6 ∧
        0 ≤ (st.g_snake.headD (0, 0)).2 + st.g_pending.2 ∧
        (st.g_snake.headD (0, 0)).2 + st.g_pending.2 ≤ 8) ∨
      ((st.g_snake.headD (0, 0)).1 + st.g_pending.1,
       (st.g_snake.headD (0, 0)).2 + st.g_pending.2) ∈ st.g_snake) :
    snake_game_tick st pick
      = ({st with g_dir := st.g_pending, loop_snake_game := false},
         status_text_events ("Game Over!".data)) ∧
    ∀ cols, DevEvent.mmFrame cols ∉ (snake_game_tick st pick).2 := by
  have heq : snake_game_tick st pick
      = ({st with g_dir := st.g_pending, loop_snake_game := false},
         status_text_events ("Game Over!".data)) := by
    simp only [snake_game_tick, hrun, hpause, Bool.not_true, Bool.false_eq_true, if_false]
    rw [if_pos hover]
  refine ⟨heq, ?_⟩
  intro cols
  rw [heq]
  simp [status_text_events]

/-- Witness for C10: the left-moving snake with head `(3,0)` hits the wall
at `(3,-1)`; body, food and score survive and the flag is cleared. -/
theorem snake_game_over_preserves_witness :
    snake_game_tick {stRun with
                     g_snake := [((3 : Int), (0 : Int)), (3, 1), (3, 2)],
                     g_dir := (0, -1),
                     g_pending := (0, -1)} 0
      = ({stRun with
          g_snake := [((3 : Int), (0 : Int)), (3, 1), (3, 2)],
          g_dir := (0, -1),
          g_pending := (0, -1),
          loop_snake_game := false},
         status_text_events ("Game Over!".data)) := by
  have h := snake_game_over_preserves
    {stRun with
     g_snake := [((3 : Int), (0 : Int)), (3, 1), (3, 2)],
     g_dir := (0, -1),
     g_pending := (0, -1)} 0 rfl rfl (by decide)
  exact h.1

theorem getD_map_range {α : Type} (n : Nat) (f : Nat → α) (i : Nat) (d : α)
    (h : i < n) : ((List.range n).map f).getD i d = f i := by
  rw [List.getD_eq_getElem?_getD, List.getElem?_map, List.getElem?_range h]
  rfl

/-- C7: one Game-of-Life step on the 7×9 bounded grid applies the standard
Conway rule with the 8-offset Moore neighbourhood and hard boundaries
(`golNeighbors` counts live in-bounds cells over the eight offsets): a live
cell survives iff it has 2 or 3 live neighbours, a dead cell is born iff it
has exactly 3; it writes a fresh grid (the embedding is pure, `gol_step`
never mutates `g`); consequently the 2×2 block is a still life and the
3-cell blinker oscillates with period 2. -/
theorem gol_step_conway :
    (∀ (g : List (List Bool)) (r c : Nat), r < 7 → c < 9 →
      ((gol_step g).getD r []).getD c false
        = (if (g.getD r []).getD c false
           then (golNeighbors g r c == 2 || golNeighbors g r c == 3)
           else (golNeighbors g r c == 3))) ∧
    gol_step (mkGrid [(2, 2), (2, 3), (3, 2), (3, 3)])
      = mkGrid [(2, 2), (2, 3), (3, 2), (3, 3)] ∧
    gol_step (mkGrid [(2, 3), (2, 4), (2, 5)]) = mkGrid [(1, 4), (2, 4), (3, 4)] ∧
    gol_step (gol_step (mkGrid [(2, 3), (2, 4), (2, 5)])) = mkGrid [(2, 3), (2, 4), (2, 5)] ∧
    gol_step (mkGrid [(2, 3), (2, 4), (2, 5)]) ≠ mkGrid [(2, 3), (2, 4), (2, 5)] := by
  refine ⟨?_, by decide, by decide, by decide, by decide⟩
  intro g r c hr hc
  rw [gol_step, getD_map_range 7 _ r [] hr, getD_map_range 9 _ c false hc]

/-- Witness for C7 at the block grid and cell `(0,0)`. -/
theorem gol_step_conway_witness :
    ((gol_step (mkGrid [(2, 2), (2, 3), (3, 2), (3, 3)])).getD 0 []).getD 0 false
      = (if ((mkGrid [(2, 2), (2, 3), (3, 2), (3, 3)]).getD 0 []).getD 0 false
         then (golNeighbors (mkGrid [(2, 2), (2, 3), (3, 2), (3, 3)]) 0 0 == 2 ||
               golNeighbors (mkGrid [(2, 2), (2, 3), (3, 2), (3, 3)]) 0 0 == 3)
         else (golNeighbors (mkGrid [(2, 2), (2, 3), (3, 2), (3, 3)]) 0 0 == 3)) :=
  gol_step_conway.1 (mkGrid [(2, 2), (2, 3), (3, 2), (3, 3)]) 0 0 (by decide) (by decide)

theorem orBit_length (cols : List Nat) (c r : Nat) :
    (orBit cols c r).length = cols.length := by
  simp [orBit]

theorem orBit_getD_self (cols : List Nat) (c r : Nat) (h : c < cols.length) :
    (orBit cols c r).getD c 0 = cols.getD c 0 ||| (1 <<< r) := by
  rw [orBit, List.getD_eq_getElem?_getD, List.getElem?_set_self]
  · simp [h]
  · exact h

theorem orBit_getD_ne (cols : List Nat) (c r i : Nat) (h : c ≠ i) :
    (orBit cols c r).getD i 0 = cols.getD i 0 := by
  rw [orBit, List.getD_eq_getElem?_getD, List.getElem?_set_ne h,
    ← List.getD_eq_getElem?_getD]

theorem testBit_shiftLeft_one (r j : Nat) : (1 <<< r).testBit j = decide (j = r) := by
  rw [Nat.shiftLeft_eq, one_mul, Nat.testBit_two_pow]
  simp [eq_comm]

/-- The column fold of `_rain_tick` sets exactly the bits of the drop
positions: bit `j` of column `i` is set iff it was set in `init` or some
drop sits at `(j, i)`. -/
theorem rain_fold_testBit (drops : List (Nat × Nat)) (init : List Nat)
    (hlen : init.length = 9) (hc : ∀ p ∈ drops, p.2 ≤ 8) (i j : Nat) :
    ((drops.foldl (fun cs p => orBit cs p.2 p.1) init).getD i 0).testBit j
      = ((init.getD i 0).testBit j || decide ((j, i) ∈ drops)) := by
  induction drops generalizing init with
  | nil => simp
  | cons hd tl ih =>
    have hlen2 : (orBit init hd.2 hd.1).length = 9 := by rw [orBit_length, hlen]
    have hc2 : ∀ p ∈ tl, p.2 ≤ 8 := fun p hp => hc p (List.mem_cons_of_mem _ hp)
    show ((tl.foldl _ (orBit init hd.2 hd.1)).getD i 0).testBit j = _
    rw [ih (orBit init hd.2 hd.1) hlen2 hc2]
    by_cases hci : hd.2 = i
    · subst hci
      have h9 : hd.2 < init.length := by
        rw [hlen]
        exact lt_of_le_of_lt (hc hd (List.mem_cons_self hd tl)) (by norm_num)
      rw [orBit_getD_self init hd.2 hd.1 h9, Nat.testBit_or, testBit_shiftLeft_one]
      by_cases hj : j = hd.1
      · simp [hj, List.mem_cons]
      · simp [hj, List.mem_cons, Prod.ext_iff]
    · rw [orBit_getD_ne init hd.2 hd.1 i hci]
      have hne : (j, i) ≠ hd := fun he => hci ((congrArg Prod.snd he).symm)
      simp [List.mem_cons, hne]

/-- C9 counterexample: on an empty-drop rain state, a tick that spawns a
drop in column 4 transmits the frame `[0,0,0,0,2,0,0,0,0]`: the spawned
drop is at row 1 (bit 1), and row 0 of its column is *not* lit, because the
source appends the drop at row 0 and then advances every drop (the new one
included) before rendering. -/
theorem rain_tick_counterexample :
    (rain_tick {st0 with loop_mini_rain := true} true 4).2
      = [DevEvent.mmFrame [0, 0, 0, 0, 2, 0, 0, 0, 0]] ∧
    ((([0, 0, 0, 0, 2, 0, 0, 0, 0] : List Nat).getD 4 0).testBit 0 = false) ∧
    ((1 : Nat), (4 : Nat)) ∈ (rain_tick {st0 with loop_mini_rain := true} true 4).1.rain_drops := by
  decide

/-- C9 amended: each rain tick optionally spawns a drop (probability 0.35
in the source, here the explicit boolean `spawn`) at row 0 of column `col`,
then advances *every* drop — the spawned one included, so it first appears
at row 1 — discards drops that would pass row 6, and transmits exactly the
union of the advanced drop positions. -/
theorem rain_tick_spec (st : AppState) (spawn : Bool) (col : Nat)
    (hrun : st.loop_mini_rain = true) (hcol : col ≤ 8)
    (hdrops : ∀ p ∈ st.rain_drops, p.2 ≤ 8) :
    ((rain_tick st spawn col).1.rain_drops =
       (if spawn then st.rain_drops ++ [(0, col)] else st.rain_drops).filterMap
         (fun p => if p.1 + 1 ≤ 6 then some (p.1 + 1, p.2) else none)) ∧
    (spawn = true → ((1 : Nat), col) ∈ (rain_tick st spawn col).1.rain_drops) ∧
    (∀ p ∈ st.rain_drops, p.1 + 1 ≤ 6 →
      (p.1 + 1, p.2) ∈ (rain_tick st spawn col).1.rain_drops) ∧
    (∀ p ∈ (rain_tick st spawn col).1.rain_drops, p.1 ≤ 6 ∧ p.2 ≤ 8) ∧
    (∃ cols, (rain_tick st spawn col).2 = [DevEvent.mmFrame cols] ∧
      ∀ i j, ((cols.getD i 0).testBit j = true ↔
        (j, i) ∈ (rain_tick st spawn col).1.rain_drops)) := by
  have hb : (!st.loop_mini_rain) = false := by simp [hrun]
  have hdrops2 : (rain_tick st spawn col).1.rain_drops =
      (if spawn then st.rain_drops ++ [(0, col)] else st.rain_drops).filterMap
        (fun p => if p.1 + 1 ≤ 6 then some (p.1 + 1, p.2) else none) := by
    simp only [rain_tick, hb, Bool.false_eq_true, if_false]
  have hmem : ∀ p ∈ (rain_tick st spawn col).1.rain_drops, p.1 ≤ 6 ∧ p.2 ≤ 8 := by
    intro p hp
    rw [hdrops2] at hp
    obtain ⟨a, ha, hfa⟩ := List.mem_filterMap.mp hp
    by_cases h6 : a.1 + 1 ≤ 6
    · rw [if_pos h6] at hfa
      obtain rfl := (Option.some.injEq _ _).mp hfa
      refine ⟨h6, ?_⟩
      split at ha
      · rcases List.mem_append.mp ha with h | h
        · exact hdrops a h
        · simp only [List.mem_singleton] at h
          rw [h]
          exact hcol
      · exact hdrops a ha
    · rw [if_neg h6] at hfa
      exact absurd hfa (by simp)
  refine ⟨hdrops2, ?_, ?_, hmem, ?_⟩
  · intro hs
    rw [hdrops2, hs]
    refine List.mem_filterMap.mpr ⟨(0, col), ?_, by norm_num⟩
    simp
  · intro p hp h6
    rw [hdrops2]
    refine List.mem_filterMap.mpr ⟨p, ?_, by rw [if_pos h6]⟩
    split
    · exact List.mem_append.mpr (Or.inl hp)
    · exact hp
  · refine ⟨(rain_tick st spawn col).1.rain_drops.foldl
      (fun cs p => orBit cs p.2 p.1) (List.replicate 9 0), ?_, ?_⟩
    · simp only [rain_tick, hb, Bool.false_eq_true, if_false]
    · intro i j
      rw [rain_fold_testBit _ _ (by simp) (fun p hp => (hmem p hp).2) i j]
      have h0 : (List.replicate 9 (0 : Nat)).getD i 0 = 0 := by
        rcases Nat.lt_or_ge i 9 with h | h
        · rw [List.getD_eq_getElem?_getD, List.getElem?_replicate, if_pos h]
          rfl
        · rw [List.getD_eq_getElem?_getD, List.getElem?_replicate, if_neg (by omega)]
          rfl
      rw [h0, Nat.zero_testBit, Bool.false_or]
      simp

/-- Witness for the amended C9 at the empty-drops rain state, spawning in
column 4: the spawned drop sits at `(1,4)` after the tick. -/
theorem rain_tick_spec_witness :
    ((1 : Nat), (4 : Nat)) ∈
      (rain_tick {st0 with loop_mini_rain := true} true 4).1.rain_drops := by
  have h := rain_tick_spec {st0 with loop_mini_rain := true} true 4 rfl (by decide) (by decide)
  exact h.2.1 rfl

theorem rand_food_not_mem (snake : List (Int × Int)) (pick : Nat)
    (h : freeCells snake ≠ []) : rand_food snake pick ∉ snake := by
  have hne : (freeCells snake).isEmpty = false := by
    rcases he : (freeCells snake).isEmpty with _ | _
    · rfl
    · exact absurd (List.isEmpty_iff.mp he) h
  simp only [rand_food, hne, Bool.false_eq_true, if_false]
  have hlen : 0 < (freeCells snake).length := List.length_pos.mpr h
  have hidx : pick % (freeCells snake).length < (freeCells snake).length :=
    Nat.mod_lt _ hlen
  have hm : (freeCells snake).getD (pick % (freeCells snake).length) (3, 4)
      ∈ freeCells snake := by
    rw [List.getD_eq_getElem?_getD, List.getElem?_eq_getElem hidx]
    exact List.getElem_mem _
  unfold freeCells at hm
  exact of_decide_eq_true (List.mem_filter.mp hm).2

theorem freeCells_eq_nil (snake : List (Int × Int)) (h : freeCells snake = []) :
    63 ≤ snake.length := by
  have hall : ∀ p ∈ allCells, p ∈ snake := by
    intro p hp
    by_contra hmem
    have hin : p ∈ freeCells snake :=
      List.mem_filter.mpr ⟨hp, decide_eq_true hmem⟩
    rw [h] at hin
    exact absurd hin (List.not_mem_nil p)
  have hsub : allCells.toFinset ⊆ snake.toFinset := by
    intro x hx
    exact List.mem_toFinset.mpr (hall x (List.mem_toFinset.mp hx))
  have h1 : allCells.toFinset.card = 63 := by decide
  calc (63 : Nat) = allCells.toFinset.card := h1.symm
    _ ≤ snake.toFinset.card := Finset.card_le_card hsub
    _ ≤ snake.length := List.toFinset_card_le snake

/-- One game tick preserves "food off the snake while the board is not
full". -/
theorem snake_tick_keeps_food_free (st : AppState) (pick : Nat)
    (ih : st.g_snake.length < 63 → st.g_food ∉ st.g_snake)
    (hlen : (snake_game_tick st pick).1.g_snake.length < 63) :
    (snake_game_tick st pick).1.g_food ∉ (snake_game_tick st pick).1.g_snake := by
  rcases hb : st.loop_snake_game with _ | _
  · have heq : snake_game_tick st pick = (st, []) := by
      simp [snake_game_tick, hb]
    rw [heq] at hlen ⊢
    exact ih hlen
  · rcases hp : st.g_paused with _ | _
    · simp only [snake_game_tick, hb, hp, Bool.not_true, Bool.false_eq_true,
        if_false] at hlen ⊢
      by_cases hover :
          ¬(0 ≤ (st.g_snake.headD (0, 0)).1 + st.g_pending.1 ∧
            (st.g_snake.headD (0, 0)).1 + st.g_pending.1 ≤ 6 ∧
            0 ≤ (st.g_snake.headD (0, 0)).2 + st.g_pending.2 ∧
            (st.g_snake.headD (0, 0)).2 + st.g_pending.2 ≤ 8) ∨
          ((st.g_snake.headD (0, 0)).1 + st.g_pending.1,
           (st.g_snake.headD (0, 0)).2 + st.g_pending.2) ∈ st.g_snake
      · rw [if_pos hover] at hlen ⊢
        exact ih hlen
      · rw [if_neg hover] at hlen ⊢
        by_cases heat :
            ((st.g_snake.headD (0, 0)).1 + st.g_pending.1,
             (st.g_snake.headD (0, 0)).2 + st.g_pending.2) = st.g_food
        · rw [if_pos heat] at hlen ⊢
          have hlen2 : st.g_snake.length + 1 < 63 := hlen
          refine rand_food_not_mem _ pick ?_
          intro hnil
          have h63 := freeCells_eq_nil _ hnil
          have h63b : 63 ≤ st.g_snake.length + 1 := h63
          omega
        · rw [if_neg heat] at hlen ⊢
          intro hmem
          rcases List.mem_cons.mp (List.dropLast_subset _ hmem) with he | hm
          · exact heat he.symm
          · have hl : st.g_snake.length < 63 := by
              have h1 : (((st.g_snake.headD (0, 0)).1 + st.g_pending.1,
                  (st.g_snake.headD (0, 0)).2 + st.g_pending.2) ::
                  st.g_snake).dropLast.length < 63 := hlen
              rw [List.length_dropLast, List.length_cons] at h1
              omega
            exact ih hl hm
    · have heq : snake_game_tick st pick = (st, []) := by
        simp [snake_game_tick, hb, hp]
      rw [heq] at hlen ⊢
      exact ih hlen

/-- C6 amended: in every reachable snake-game state in which the snake does
not yet cover all 63 board cells, the food does not overlap the snake.
(The unamended claim fails only on the full board: there `_rand_food` falls
back to `(3,4)`, which lies on the snake.) -/
theorem snake_food_not_on_snake (st : AppState) (hreach : SnakeReach st)
    (hlen : st.g_snake.length < 63) : st.g_food ∉ st.g_snake := by
  revert hlen
  induction hreach with
  | init grid pick =>
    intro _
    refine rand_food_not_mem [(3, 2), (3, 1), (3, 0)] pick ?_
    decide
  | tick st pick hr ih =>
    intro hlen
    exact snake_tick_keeps_food_free st pick ih hlen
  | key st d hr ih =>
    intro hlen
    by_cases hk : d = (-st.g_dir.1, -st.g_dir.2)
    · have heq : snake_key st d = st := by simp [snake_key, hk]
      rw [heq] at hlen ⊢
      exact ih hlen
    · have heq : snake_key st d = {st with g_pending := d} := by
        simp [snake_key, hk]
      rw [heq] at hlen ⊢
      exact ih hlen
  | pause st hr ih =>
    intro hlen
    rcases hb : st.loop_snake_game with _ | _
    · have heq : snake_game_toggle_pause st = (st, []) := by
        simp [snake_game_toggle_pause, hb]
      rw [heq] at hlen ⊢
      exact ih hlen
    · have heq : (snake_game_toggle_pause st).1 = {st with g_paused := !st.g_paused} := by
        simp [snake_game_toggle_pause, hb]
      rw [heq] at hlen ⊢
      exact ih hlen
  | reset st pick hr ih =>
    intro _
    refine rand_food_not_mem [(3, 2), (3, 1), (3, 0)] pick ?_
    decide
  | start st pick hr ih =>
    intro hlen
    exact snake_tick_keeps_food_free
      {(stop_all_mm st).1 with loop_snake_game := true, g_paused := false} pick ih hlen

/-- Witness for the amended C6 at the freshly initialized state. -/
theorem snake_food_not_on_snake_witness : st0.g_food ∉ st0.g_snake :=
  snake_food_not_on_snake st0 (SnakeReach.init (mkGrid []) 0) (by decide)

theorem snakeRunScript_reachable (ms : List ((Int × Int) × Nat)) (st : AppState)
    (h : SnakeReach st) : SnakeReach (snakeRunScript st ms) := by
  induction ms generalizing st with
  | nil => exact h
  | cons m ms ih => exact ih _ (SnakeReach.tick _ m.2 (SnakeReach.key _ m.1 h))

/-- C6 counterexample: a reachable state (reset, then the 67-tick perfect
game `snakeScript`) in which the snake covers all 63 cells and the food,
relocated by `_rand_food`'s empty-free-list fallback to `(3,4)`, lies on
the snake. -/
theorem snake_food_overlap_counterexample :
    SnakeReach snakeFullBoardState ∧
    snakeFullBoardState.g_food ∈ snakeFullBoardState.g_snake ∧
    snakeFullBoardState.g_snake.length = 63 := by
  refine ⟨?_, by decide, by decide⟩
  exact snakeRunScript_reachable snakeScript _
    (SnakeReach.reset _ 3 (SnakeReach.start _ 0 (SnakeReach.init (mkGrid []) 0)))

end MD8800
